import Mathlib

/-!
Verification of the msm clock debug layer (arch/arm/mach-msm/clock-debug.c).

The C file is a thin control layer over an external clock tree: it applies
rate changes under MIN/MAX policy flags, enables/disables clocks, reports
the set of enabled clocks into a fixed 1024-byte buffer, and measures a
target clock's rate by reparenting a shared probe clock onto it.

The embedding below follows the C source function by function.  External
collaborators (clk_set_rate, clk_set_min_rate, clk_set_max_rate, clk_enable,
clk_set_parent, clk_get_rate: all defined in clock.c, outside this file) are
abstracted as environment records of uninterpreted functions, and each
embedded function additionally returns the list of external calls it makes,
so that call order and discarded results are visible in the model.
A call through a NULL function pointer (undefined behavior in C) is
modelled as the result `none` of an `Option`-valued function.
-/

/-- A clock node as seen by clock-debug.c.  `dbg_name` is the NUL-free byte
string of `clk->dbg_name`; `flagMin`/`flagMax` are the CLKFLAG_MIN/CLKFLAG_MAX
bits of `clk->flags`; `count` is the enable reference count `clk->count`;
`ops_is_enabled` is the result of `clk->ops->is_enabled(clk)` when that
function pointer is non-NULL (`none` models a NULL pointer), and likewise
`ops_is_local` for `clk->ops->is_local`. -/
structure Clk where
  dbg_name : List Nat
  flagMin : Bool
  flagMax : Bool
  count : Nat
  ops_is_enabled : Option Int
  ops_is_local : Option Int
  deriving DecidableEq

/-- External calls made by the debug layer, recorded as a trace. -/
inductive Ev where
  | setMaxRate (r : Nat)
  | setMinRate (r : Nat)
  | setRate (r : Nat)
  | setParent (target : Clk)
  | getRate
  | enableEv (c : Clk)
  | disableEv (c : Clk)
  deriving DecidableEq

/-- Results of the external rate-setting calls of clock.c, one uninterpreted
function per entry point. -/
structure RateEnv where
  set_max_rate : Clk → Nat → Int
  set_min_rate : Clk → Nat → Int
  set_rate : Clk → Nat → Int

/-- Embedding of `clock_debug_rate_set`: when CLKFLAG_MAX is set, call
`clk_set_max_rate` and discard its result; then assign `ret` from
`clk_set_min_rate` when CLKFLAG_MIN is set and from `clk_set_rate` otherwise,
and return `ret`.  The first component is the trace of external calls. -/
def clock_debug_rate_set (env : RateEnv) (clock : Clk) (val : Nat) :
    List Ev × Int :=
  let pre :=
    if clock.flagMax then
      let _discarded := env.set_max_rate clock val
      [Ev.setMaxRate val]
    else []
  if clock.flagMin then
    (pre ++ [Ev.setMinRate val], env.set_min_rate clock val)
  else
    (pre ++ [Ev.setRate val], env.set_rate clock val)

/-- Results of the external calls used by the measurement path: the return
code of `clk_set_parent(measure, clock)` and the value of
`clk_get_rate(measure)` as read right after a successful reparent. -/
structure MeasureEnv where
  set_parent : Clk → Int
  get_rate : Nat

/-- Embedding of `clock_debug_measure_get`: `ret = clk_set_parent(measure,
clock); if (!ret) *val = clk_get_rate(measure); return ret`.  The debugfs
simple-attribute wrapper surfaces `*val` exactly when the getter returns 0,
so the result is `Except.ok rate` on success and `Except.error ret`
otherwise. -/
def clock_debug_measure_get (env : MeasureEnv) (clock : Clk) :
    List Ev × Except Int Nat :=
  let ret := env.set_parent clock
  if ret = 0 then
    ([Ev.setParent clock, Ev.getRate], Except.ok env.get_rate)
  else
    ([Ev.setParent clock], Except.error ret)

/-- Result of the external `clk_enable` call (`clk_disable` returns void). -/
structure EnableEnv where
  clk_enable : Clk → Int

/-- Embedding of `clock_debug_enable_set`: `rc = 0; if (val) rc =
clk_enable(clock); else clk_disable(clock); return rc`. -/
def clock_debug_enable_set (env : EnableEnv) (clock : Clk) (val : Nat) :
    List Ev × Int :=
  if val ≠ 0 then ([Ev.enableEv clock], env.clk_enable clock)
  else ([Ev.disableEv clock], 0)

/-- Embedding of `clock_debug_enable_get`: if `clock->ops->is_enabled` is a
non-NULL pointer use its result, otherwise fall back to `!!(clock->count)`;
`*val` receives that value and the function returns 0.  The pair is
(returned status, `*val`). -/
def clock_debug_enable_get (clock : Clk) : Int × Int :=
  match clock.ops_is_enabled with
  | some e => (0, e)
  | none => (0, if clock.count ≠ 0 then 1 else 0)

/-- Embedding of `clock_debug_local_get`: `*val = clock->ops->is_local(clock);
return 0;` with no NULL check on the `is_local` pointer.  When the capability
is absent the C code calls through a NULL pointer: that undefined behavior is
modelled as `none`; otherwise the result is `some (0, *val)`. -/
def clock_debug_local_get (clock : Clk) : Option (Int × Int) :=
  match clock.ops_is_local with
  | some v => some (0, v)
  | none => none

/-- Modulus of the C `unsigned` type in which `clock_debug_print_enabled`
keeps its `size` counter. -/
def UINT_MOD : Nat := 4294967296

/-- Bytes written by `snprintf(msm_enabled + size, strlen(dbg_name) + 2,
"%s, ", dbg_name)`: the limit truncates the formatted string `name, ` to
`strlen(name) + 1` characters plus a terminating NUL, so the name's bytes land
at offsets `size .. size+len-1`, a comma (byte 44) at `size+len`, and a NUL at
`size+len+1`.  Each write is a pair (buffer index, byte value). -/
def snprintfWrites (off : Nat) (name : List Nat) : List (Nat × Nat) :=
  (List.range name.length).map (fun j => (off + j, name.getD j 0)) ++
    [(off + name.length, 44), (off + name.length + 1, 0)]

/-- The scan loop of `clock_debug_print_enabled`.  Per registry entry: if the
clk pointer is non-NULL and `clk->ops->is_enabled(clk)` is nonzero, append
the name with `snprintf` (which returns `strlen(name) + 2`, so
`size += ret - 1` advances by `strlen(name) + 1` in unsigned arithmetic) and
increment `cnt`; then `if (size > 1000) break`.  Calling `is_enabled` through
a NULL pointer is undefined behavior, modelled as `none`.  The result on
normal exit is `(size, cnt, writes)`. -/
def printLoop : List (Option Clk) → Nat → Nat → List (Nat × Nat) →
    Option (Nat × Nat × List (Nat × Nat))
  | [], size, cnt, ws => some (size, cnt, ws)
  | oc :: rest, size, cnt, ws =>
    match oc with
    | none =>
        if 1000 < size then some (size, cnt, ws)
        else printLoop rest size cnt ws
    | some clk =>
      match clk.ops_is_enabled with
      | none => none
      | some e =>
        if e ≠ 0 then
          let ws2 := ws ++ snprintfWrites size clk.dbg_name
          let size2 := (size + clk.dbg_name.length + 1) % UINT_MOD
          if 1000 < size2 then some (size2, cnt + 1, ws2)
          else printLoop rest size2 (cnt + 1) ws2
        else
          if 1000 < size then some (size, cnt, ws)
          else printLoop rest size cnt ws

/-- The writes of `memset(msm_enabled, 0, 1024)`: a zero byte at each of the
indices 0..1023. -/
def memsetWrites : List (Nat × Nat) := (List.range 1024).map (fun j => (j, 0))

/-- Embedding of `clock_debug_print_enabled` (the bounded-buffer report),
assuming `msm_enabled` was allocated: clear the buffer, run the scan loop
from `size = cnt = 0`, then execute `msm_enabled[size - 1] = 0` where the
index is computed in C `unsigned` arithmetic (so `size = 0` yields index
`2^32 - 1`).  Returns `(size, cnt, all buffer writes in order)`, or `none`
when the scan hit undefined behavior. -/
def clock_debug_print_enabled (registry : List (Option Clk)) :
    Option (Nat × Nat × List (Nat × Nat)) :=
  match printLoop registry 0 0 memsetWrites with
  | none => none
  | some (size, cnt, ws) =>
      some (size, cnt, ws ++ [((size + (UINT_MOD - 1)) % UINT_MOD, 0)])

/-- Embedding of `_clock_debug_print_enabled` (the `showall` report): walk the
registry; for each entry with a non-NULL clk pointer and
`clk->ops->is_enabled(clk)` nonzero, print the name and increment `cnt`.
Returns the printed names in order and the returned count, or `none` when a
non-NULL entry's `is_enabled` pointer is NULL (undefined behavior). -/
def showall_print_enabled : List (Option Clk) → Option (List (List Nat) × Nat)
  | [] => some ([], 0)
  | oc :: rest =>
    match oc with
    | none => showall_print_enabled rest
    | some clk =>
      match clk.ops_is_enabled with
      | none => none
      | some e =>
        match showall_print_enabled rest with
        | none => none
        | some (ns, c) =>
          if e ≠ 0 then some (clk.dbg_name :: ns, c + 1) else some (ns, c)

/-- A registry with its NULL clk-pointer entries removed. -/
def dropNones (registry : List (Option Clk)) : List (Option Clk) :=
  registry.filter (fun oc => oc.isSome)

/-- Witness clock whose ops do not expose `is_local`. -/
def cNoLocal : Clk := ⟨[98], false, false, 0, some 1, none⟩

/-- Witness clock whose ops expose `is_local` (reporting 1). -/
def cLocal : Clk := ⟨[100], false, false, 0, some 5, some 1⟩

/-- Witness clock whose ops do not expose `is_enabled` but whose enable
reference count is nonzero. -/
def cFallback : Clk := ⟨[99], false, false, 1, none, none⟩

/-- Witness clock carrying both the MIN and the MAX policy flag. -/
def cMinMax : Clk := ⟨[97], true, true, 0, none, none⟩

/-- Witness measurement environment whose reparent succeeds and whose probe
reads rate 42. -/
def envRepOk : MeasureEnv := ⟨fun _ => 0, 42⟩

/-- Witness measurement environment whose reparent fails with -5. -/
def envRepFail : MeasureEnv := ⟨fun _ => -5, 42⟩

/-- Witness enable environment whose `clk_enable` fails with -16. -/
def envEnableFail : EnableEnv := ⟨fun _ => -16⟩

/-- Witness environment whose max-rate call fails with -22 while the min-rate
call succeeds. -/
def envMaxFail : RateEnv :=
  ⟨fun _ _ => -22, fun _ _ => 0, fun _ _ => -1⟩

/-- Witness environment agreeing with `envMaxFail` except that the max-rate
call succeeds. -/
def envMaxOk : RateEnv :=
  ⟨fun _ _ => 0, fun _ _ => 0, fun _ _ => -1⟩

/-- Errors of the measurement endpoint as named by the specification. -/
inductive MeasureError where
  | ProbeUnavailable
  | ReparentFailed (code : Int)
  deriving DecidableEq

/-- Embedding of the probe resolution in `clock_debug_init`: `measure =
clk_get_sys("debug", "measure"); if (IS_ERR(measure)) measure = NULL;`. -/
def init_measure (resolved : Except Int Clk) : Option Clk :=
  match resolved with
  | Except.ok c => some c
  | Except.error _ => none

/-- Embedding of the measurement-endpoint registration step of
`clock_debug_add`: `if (measure && !clk_set_parent(measure, clock) &&
!debugfs_create_file(...)) goto error;`.  The conjunction short-circuits:
with a NULL probe no reparent is attempted and no endpoint file is created.
`createOk` is whether `debugfs_create_file` succeeded (on failure the goto
rolls the clock's subtree back, so no endpoint survives).  Returns the trace
of external calls and whether the clock's measure endpoint exists
afterwards. -/
def add_measure_endpoint (measure : Option Clk) (env : MeasureEnv)
    (createOk : Bool) (clock : Clk) : List Ev × Bool :=
  match measure with
  | none => ([], false)
  | some _ =>
    let ret := env.set_parent clock
    if ret = 0 then ([Ev.setParent clock], createOk)
    else ([Ev.setParent clock], false)

/-- Modelled from the spec: the control-plane dispatch of a measurement
request.  The virtual-file layer (clock.c and debugfs are outside src)
invokes `clock_debug_measure_get` only through a clock's `measure` endpoint
file; per spec section 4.4, when no endpoint was created the request fails
immediately with `ProbeUnavailable` and invokes nothing. -/
def measure_request (endpointExists : Bool) (env : MeasureEnv) (clock : Clk) :
    List Ev × Except MeasureError Nat :=
  if endpointExists then
    let out := clock_debug_measure_get env clock
    (out.1, match out.2 with
      | Except.ok v => Except.ok v
      | Except.error e => Except.error (MeasureError.ReparentFailed e))
  else ([], Except.error MeasureError.ProbeUnavailable)

/-- Core operations runnable after initialization with a resolved probe,
tagged with the outcome of any reparent they perform.  `measureOp target ok`
is a measurement request whose `clk_set_parent(measure, target)` succeeded
iff `ok`; `addOp clock ok` is a `clock_debug_add` registration whose eager
`clk_set_parent(measure, clock)` succeeded iff `ok`; rate and enable
operations never call `clk_set_parent` (their embeddings above emit no
`setParent` event). -/
inductive CoreOp where
  | measureOp (target : Clk) (ok : Bool)
  | addOp (clock : Clk) (ok : Bool)
  | rateOp (clock : Clk) (val : Nat)
  | enableOp (clock : Clk) (val : Nat)
  deriving DecidableEq

/-- Modelled from the spec: the effect of one core operation on the probe's
current parent.  `clk_set_parent` (defined in clock.c, outside src) makes the
target the probe's parent on success; a failed reparent is modelled as
leaving the parent unchanged (the spec leaves it unspecified); rate and
enable operations do not touch the parent. -/
def stepParent (p : Option Clk) : CoreOp → Option Clk
  | CoreOp.measureOp t ok => if ok then some t else p
  | CoreOp.addOp c ok => if ok then some c else p
  | CoreOp.rateOp _ _ => p
  | CoreOp.enableOp _ _ => p

/-- The probe's parent after a sequence of core operations, starting unset. -/
def runParent (tr : List CoreOp) : Option Clk :=
  tr.foldl stepParent none

/-- Fold step computing the target of the most recent successful
measurement. -/
def measureUpd (acc : Option Clk) (op : CoreOp) : Option Clk :=
  match op with
  | CoreOp.measureOp t true => some t
  | _ => acc

/-- The target of the most recent successful measurement in a trace: the
claim's candidate value for the probe's parent. -/
def lastMeasured (tr : List CoreOp) : Option Clk :=
  tr.foldl measureUpd none

/-- Fold step computing the target of the most recent successful reparent,
whether performed by a measurement or by registration-time eager
validation. -/
def reparentUpd (acc : Option Clk) (op : CoreOp) : Option Clk :=
  match op with
  | CoreOp.measureOp t true => some t
  | CoreOp.addOp c true => some c
  | _ => acc

/-- The target of the most recent successful reparent in a trace. -/
def lastReparented (tr : List CoreOp) : Option Clk :=
  tr.foldl reparentUpd none

/-- State of two in-flight measurement requests sharing the probe: the
probe's current parent, each request's program counter (0 = about to
reparent, 1 = about to read, 2 = done) and each request's result. -/
structure MState where
  parent : Option Clk
  pc1 : Nat
  pc2 : Nat
  res1 : Option Nat
  res2 : Option Nat
  deriving DecidableEq

/-- Modelled from the spec on top of the src two-step body of
`clock_debug_measure_get`: each measurement request is the sequence
reparent-then-read (both reparents taken to succeed), the probe's rate is a
function `rateOf` of its current parent, and — because the src function takes
no lock — the scheduler may run the steps of the two requests in any order.
`tid = true` runs the next step of request 1 (target `t1`), `tid = false` of
request 2 (target `t2`). -/
def mstep (rateOf : Option Clk → Nat) (t1 t2 : Clk) (s : MState)
    (tid : Bool) : MState :=
  if tid then
    match s.pc1 with
    | 0 => { s with parent := some t1, pc1 := 1 }
    | 1 => { s with res1 := some (rateOf s.parent), pc1 := 2 }
    | _ => s
  else
    match s.pc2 with
    | 0 => { s with parent := some t2, pc2 := 1 }
    | 1 => { s with res2 := some (rateOf s.parent), pc2 := 2 }
    | _ => s

/-- Run a schedule (a list of thread choices) of two concurrent measurement
requests from the initial state. -/
def runSched (rateOf : Option Clk → Nat) (t1 t2 : Clk)
    (sched : List Bool) : MState :=
  sched.foldl (mstep rateOf t1 t2) ⟨none, 0, 0, none, none⟩

/-- Witness rate function: rate 100 when the probe's parent is `cMinMax` and
rate 200 on any other parent. -/
def rateOfW (p : Option Clk) : Nat :=
  match p with
  | some c => if c = cMinMax then 100 else 200
  | none => 0

/-- C1: for every clock and rate, `clock_debug_rate_set` returns exactly the
result of the definitive call (`clk_set_min_rate` under CLKFLAG_MIN, plain
`clk_set_rate` otherwise, MIN taking precedence when both flags are set); its
trace is the best-effort max-rate call, when CLKFLAG_MAX is set, followed by
the definitive call; and the returned result is unchanged under any
reinterpretation of `clk_set_max_rate`, so a max-rate failure is never
surfaced and never blocks the definitive step. -/
theorem C1_rate_set_policy (env env2 : RateEnv) (clock : Clk) (val : Nat)
    (hmin : env2.set_min_rate = env.set_min_rate)
    (hset : env2.set_rate = env.set_rate) :
    (clock_debug_rate_set env clock val).2 =
      (if clock.flagMin then env.set_min_rate clock val
       else env.set_rate clock val) ∧
    (clock_debug_rate_set env clock val).1 =
      (if clock.flagMax then [Ev.setMaxRate val] else []) ++
        [if clock.flagMin then Ev.setMinRate val else Ev.setRate val] ∧
    (clock_debug_rate_set env2 clock val).2 =
      (clock_debug_rate_set env clock val).2 := by
  unfold clock_debug_rate_set
  rcases clock with ⟨n, fmin, fmax, c, oe, ol⟩
  cases fmin <;> cases fmax <;> simp [hmin, hset]

/-- Concrete instantiation of C1: on a MAX-and-MIN flagged clock, with a
max-rate call that fails with -22, the returned result is the min-rate
call's result. -/
theorem C1_rate_set_policy_witness :
    (clock_debug_rate_set envMaxFail cMinMax 5).2 =
      envMaxFail.set_min_rate cMinMax 5 := by
  have h := (C1_rate_set_policy envMaxFail envMaxOk cMinMax 5 rfl rfl).1
  simpa [cMinMax] using h

/-- C2: the bounded-buffer report is not buffer-safe.  On the concrete input
of an empty registry (no clock is enabled), the scan leaves `size = 0` and the
unconditional terminator store `msm_enabled[size - 1] = 0` executes at the
unsigned index `0 - 1 = 4294967295`, a write far outside the 1024-byte
buffer; so the report does not always stay inside the bound nor terminate the
buffer safely when zero names were collected, contrary to the claim. -/
theorem C2_zero_enabled_overruns_buffer :
    ∃ out, clock_debug_print_enabled [] = some out ∧
      (4294967295, 0) ∈ out.2.2 ∧ 1024 ≤ 4294967295 := by
  refine ⟨(0, 0, memsetWrites ++ [(4294967295, 0)]), rfl, ?_, by norm_num⟩
  simp

/-- Helper for C10: skipping NULL registry entries does not change the
bounded-buffer scan, for any loop state whose size has not yet passed the
break bound (the only states the loop is entered with). -/
theorem printLoop_dropNones (registry : List (Option Clk)) :
    ∀ size cnt ws, size ≤ 1000 →
      printLoop (dropNones registry) size cnt ws = printLoop registry size cnt ws := by
  induction registry with
  | nil => intro size cnt ws _; rfl
  | cons oc rest ih =>
    intro size cnt ws h
    cases oc with
    | none =>
      have hlt : ¬ 1000 < size := not_lt.mpr h
      simp only [dropNones, List.filter, Option.isSome_none, printLoop, if_neg hlt]
      exact ih size cnt ws h
    | some clk =>
      have hlt : ¬ 1000 < size := not_lt.mpr h
      simp only [dropNones, List.filter, Option.isSome_some, printLoop]
      cases hops : clk.ops_is_enabled with
      | none => rfl
      | some e =>
        by_cases he : e ≠ 0
        · simp only [if_pos he]
          by_cases hb : 1000 < (size + clk.dbg_name.length + 1) % UINT_MOD
          · simp [hb]
          · simp only [if_neg hb]
            exact ih _ _ _ (not_lt.mp hb)
        · simp only [if_neg he, if_neg hlt]
          exact ih size cnt ws h

/-- Helper for C10: skipping NULL registry entries does not change the
`showall` report. -/
theorem showall_dropNones (registry : List (Option Clk)) :
    showall_print_enabled (dropNones registry) = showall_print_enabled registry := by
  induction registry with
  | nil => rfl
  | cons oc rest ih =>
    cases oc with
    | none =>
      simpa [dropNones, List.filter, showall_print_enabled] using ih
    | some clk =>
      simp only [dropNones, List.filter, Option.isSome_some, showall_print_enabled]
      rw [show dropNones rest = List.filter (fun oc => oc.isSome) rest from rfl] at ih
      rw [ih]

/-- C10: both enabled-set reporting paths treat a registry entry whose clk
pointer is NULL as if it were absent: the `showall` count report and the
bounded-buffer report each produce exactly the same names, count, buffer
writes and final state as on the registry with all NULL entries removed, for
any number of such entries. -/
theorem C10_null_entries_skipped (registry : List (Option Clk)) :
    showall_print_enabled (dropNones registry) = showall_print_enabled registry ∧
    clock_debug_print_enabled (dropNones registry) =
      clock_debug_print_enabled registry := by
  refine ⟨showall_dropNones registry, ?_⟩
  unfold clock_debug_print_enabled
  rw [printLoop_dropNones registry 0 0 memsetWrites (by norm_num)]

/-- C3: `clock_debug_measure_get` returns a rate value exactly when the
reparent of the probe onto the target returned 0; on a failed reparent it
returns that error and never reads (nor returns) a rate; on a successful
reparent it returns exactly the probe rate read through ops after the
reparent call. -/
theorem C3_measure_rate_iff_reparent (env : MeasureEnv) (clock : Clk) :
    ((∃ v, (clock_debug_measure_get env clock).2 = Except.ok v) ↔
      env.set_parent clock = 0) ∧
    (env.set_parent clock = 0 →
      clock_debug_measure_get env clock =
        ([Ev.setParent clock, Ev.getRate], Except.ok env.get_rate)) ∧
    (env.set_parent clock ≠ 0 →
      clock_debug_measure_get env clock =
        ([Ev.setParent clock], Except.error (env.set_parent clock)) ∧
      Ev.getRate ∉ (clock_debug_measure_get env clock).1) := by
  unfold clock_debug_measure_get
  by_cases h : env.set_parent clock = 0 <;> simp [h]

/-- Concrete instantiation of C3: with a succeeding reparent the measured
value is the probe's rate 42; with a reparent failing with -5 the result is
that error and the trace holds no rate read. -/
theorem C3_measure_rate_iff_reparent_witness :
    clock_debug_measure_get envRepOk cLocal =
      ([Ev.setParent cLocal, Ev.getRate], Except.ok 42) ∧
    clock_debug_measure_get envRepFail cLocal =
      ([Ev.setParent cLocal], Except.error (-5)) := by
  constructor
  · have h := (C3_measure_rate_iff_reparent envRepOk cLocal).2.1 rfl
    simpa [envRepOk] using h
  · have h := ((C3_measure_rate_iff_reparent envRepFail cLocal).2.2
      (by decide)).1
    simpa [envRepFail] using h

/-- C9: `clock_debug_enable_set` with a nonzero value returns exactly the
result of the external `clk_enable` call (any failure surfaced unchanged),
and with value 0 it invokes `clk_disable` and always returns 0. -/
theorem C9_enable_set_delegation (env : EnableEnv) (clock : Clk) (val : Nat) :
    (val ≠ 0 →
      clock_debug_enable_set env clock val =
        ([Ev.enableEv clock], env.clk_enable clock)) ∧
    clock_debug_enable_set env clock 0 = ([Ev.disableEv clock], 0) := by
  constructor
  · intro h
    simp [clock_debug_enable_set, h]
  · simp [clock_debug_enable_set]

/-- Concrete instantiation of C9: an enable whose underlying call fails with
-16 returns -16, and a disable returns 0. -/
theorem C9_enable_set_delegation_witness :
    clock_debug_enable_set envEnableFail cLocal 1 =
      ([Ev.enableEv cLocal], envEnableFail.clk_enable cLocal) ∧
    clock_debug_enable_set envEnableFail cLocal 0 =
      ([Ev.disableEv cLocal], 0) :=
  ⟨(C9_enable_set_delegation envEnableFail cLocal 1).1 (by decide),
   (C9_enable_set_delegation envEnableFail cLocal 0).2⟩

/-- C7 counterexample: on the concrete clock `cNoLocal`, whose ops do not
expose `is_local`, `clock_debug_local_get` does not report any error result
at all: the C code calls `clock->ops->is_local(clock)` with no NULL check, so
the call is undefined behavior (`none` in the model) rather than the distinct
CapabilityUnsupported error the claim requires. -/
theorem C7_no_capability_no_error_report :
    cNoLocal.ops_is_local = none ∧ clock_debug_local_get cNoLocal = none := by
  exact ⟨rfl, rfl⟩

/-- C7 amended: when the ops expose `is_local`, `clock_debug_local_get`
returns status 0 and exactly the ops-reported value and cannot otherwise
fail; when they do not, the code does not report CapabilityUnsupported — it
calls through the absent capability, which is undefined behavior. -/
theorem C7_local_get_delegation (clock : Clk) :
    (∀ v, clock.ops_is_local = some v →
      clock_debug_local_get clock = some (0, v)) ∧
    (clock.ops_is_local = none → clock_debug_local_get clock = none) := by
  constructor
  · intro v hv
    simp [clock_debug_local_get, hv]
  · intro hv
    simp [clock_debug_local_get, hv]

/-- Concrete instantiation of the amended C7: a clock exposing `is_local`
with value 1 yields `some (0, 1)`; a clock without the capability yields
undefined behavior. -/
theorem C7_local_get_delegation_witness :
    clock_debug_local_get cLocal = some (0, 1) ∧
    clock_debug_local_get cNoLocal = none :=
  ⟨(C7_local_get_delegation cLocal).1 1 rfl,
   (C7_local_get_delegation cNoLocal).2 rfl⟩

/-- C8 counterexample: on the concrete clock `cFallback` (NULL `is_enabled`
pointer, reference count 1), the debugfs enable read reports the clock
enabled through the refcount fallback, yet the showall reporter on the
one-entry registry does not produce the one-name, count-1 report that the
same decision would give: it calls `clk->ops->is_enabled(clk)` with no NULL
check and no fallback, so its scan has no defined result on this node. -/
theorem C8_reporter_not_same_query :
    (clock_debug_enable_get cFallback).2 ≠ 0 ∧
    showall_print_enabled [some cFallback] ≠
      some ([cFallback.dbg_name], 1) := by
  constructor <;> decide

/-- C8 amended: the debugfs enable read uses the direct `is_enabled`
capability when present and otherwise falls back to a nonzero reference
count; the showall reporter applies the direct ops call unconditionally, so
its membership decision agrees with the enable read exactly on nodes whose
ops expose `is_enabled`, and on nodes without that capability the reporter
has no defined behavior (no refcount fallback). -/
theorem C8_enabled_query_agreement (clk : Clk) :
    (∀ e, clk.ops_is_enabled = some e →
      clock_debug_enable_get clk = (0, e) ∧
      showall_print_enabled [some clk] =
        (if e ≠ 0 then some ([clk.dbg_name], 1) else some ([], 0))) ∧
    (clk.ops_is_enabled = none →
      clock_debug_enable_get clk = (0, if clk.count ≠ 0 then 1 else 0) ∧
      showall_print_enabled [some clk] = none) := by
  constructor
  · intro e he
    constructor
    · simp [clock_debug_enable_get, he]
    · simp [showall_print_enabled, he]
  · intro he
    constructor
    · simp [clock_debug_enable_get, he]
    · simp [showall_print_enabled, he]

/-- Concrete instantiation of the amended C8: on `cLocal` (direct capability
reporting 5) both paths agree the clock is enabled; on `cFallback` (no
capability, count 1) the enable read reports 1 while the reporter has no
defined result. -/
theorem C8_enabled_query_agreement_witness :
    clock_debug_enable_get cLocal = (0, 5) ∧
    showall_print_enabled [some cLocal] = some ([cLocal.dbg_name], 1) ∧
    clock_debug_enable_get cFallback = (0, 1) ∧
    showall_print_enabled [some cFallback] = none := by
  have h1 := (C8_enabled_query_agreement cLocal).1 5 rfl
  have h2 := (C8_enabled_query_agreement cFallback).2 rfl
  refine ⟨h1.1, ?_, ?_, h2.2⟩
  · have h := h1.2
    simpa using h
  · have h := h2.1
    simpa [cFallback] using h

/-- C4: when probe resolution fails at init the probe is NULL; registration
then creates no measure endpoint for any clock and attempts no reparent (the
`measure &&` conjunct short-circuits), and a measurement request against a
clock without an endpoint fails with ProbeUnavailable with an empty
external-call trace — no reparenting attempt and no observable side effect on
any node. -/
theorem C4_probe_absent_fails_fast (e : Int) (env : MeasureEnv)
    (createOk : Bool) (c t : Clk) :
    init_measure (Except.error e) = none ∧
    add_measure_endpoint none env createOk c = ([], false) ∧
    measure_request false env t =
      ([], Except.error MeasureError.ProbeUnavailable) :=
  ⟨rfl, rfl, rfl⟩

/-- C5 counterexample: after the single successful operation `clock_debug_add
cLocal` (whose eager validation reparents the probe onto `cLocal`), the
probe's parent is `cLocal`, yet no target was ever successfully measured —
so the parent is neither unset nor the most recently successfully measured
target, and an operation other than a successful measure changed it. -/
theorem C5_add_reparents_probe :
    ¬ (runParent [CoreOp.addOp cLocal true] = none ∨
       runParent [CoreOp.addOp cLocal true] =
         lastMeasured [CoreOp.addOp cLocal true]) := by
  decide

/-- C5 amended: at every instant the probe's current parent is exactly the
target of the most recent successful reparent performed by this core — by a
successful measurement or by `clock_debug_add`'s registration-time eager
validation — and unset when no reparent has succeeded; rate and enable
operations never change it. -/
theorem C5_parent_is_last_reparent (tr : List CoreOp) :
    runParent tr = lastReparented tr := by
  unfold runParent lastReparented
  suffices h : ∀ p, tr.foldl stepParent p = tr.foldl reparentUpd p from h none
  induction tr with
  | nil => intro p; rfl
  | cons op rest ih =>
    intro p
    have hstep : stepParent p op = reparentUpd p op := by
      cases op with
      | measureOp t ok => cases ok <;> rfl
      | addOp c ok => cases ok <;> rfl
      | rateOp c v => rfl
      | enableOp c v => rfl
    simp only [List.foldl_cons, hstep]
    exact ih _

/-- C6 counterexample: `clock_debug_measure_get` takes no lock, so the
schedule reparent1, reparent2, read1, read2 is a possible execution of two
concurrent measurement requests; in it both requests complete and request 1's
returned rate is the rate of request 2's target instead of its own — the
requests are not serialized and one observes the other's
reparented-but-not-yet-read probe state. -/
theorem C6_interleaving_corrupts_result :
    (runSched rateOfW cMinMax cLocal [true, false, true, false]).pc1 = 2 ∧
    (runSched rateOfW cMinMax cLocal [true, false, true, false]).pc2 = 2 ∧
    (runSched rateOfW cMinMax cLocal [true, false, true, false]).res1 =
      some (rateOfW (some cLocal)) ∧
    (runSched rateOfW cMinMax cLocal [true, false, true, false]).res1 ≠
      some (rateOfW (some cMinMax)) := by
  decide

/-- C6 amended: the code contains no critical section serializing
measurement requests, and an interleaved schedule can make a request return
the other target's rate; only when the two reparent-then-read sequences do
not interleave — either request running wholly before the other — is each
request's returned rate the rate of its own target. -/
theorem C6_non_interleaved_schedules_correct (rateOf : Option Clk → Nat)
    (t1 t2 : Clk) :
    (runSched rateOf t1 t2 [true, true, false, false]).res1 =
        some (rateOf (some t1)) ∧
    (runSched rateOf t1 t2 [true, true, false, false]).res2 =
        some (rateOf (some t2)) ∧
    (runSched rateOf t1 t2 [false, false, true, true]).res1 =
        some (rateOf (some t1)) ∧
    (runSched rateOf t1 t2 [false, false, true, true]).res2 =
        some (rateOf (some t2)) :=
  ⟨rfl, rfl, rfl, rfl⟩
